import Mathlib

/-!
Verification of the kubetnl tunnel controller against its specification.

The Go sources are shallowly embedded: pure Go functions become Lean
functions, the effectful control flow of `Tunnel.Run`, `SSHTunnel.Dial`,
`SSHTunnel.RunPortMappings`, `KubeForwarder.Run` and the cleanup routines
becomes explicit sequencing over environments that record the outcome of
every external call (cluster API results, listen results, dial attempt
results, loop iteration events).
-/

namespace Kubetnl

/-- Protocol of a port mapping (pkg/port; values TCP, UDP, SCTP per §3 of the spec). -/
inductive PortProtocol
  | tcp
  | udp
  | sctp
deriving DecidableEq, Repr

/-- Modelled from the spec: pkg/port is not under src. §3: a PortMapping is the
tuple (targetIP, targetPort, containerPort, protocol). Field names follow the
uses in the source (TargetIP, TargetPortNumber, ContainerPortNumber, Protocol). -/
structure Mapping where
  targetIP : String
  targetPortNumber : Nat
  containerPortNumber : Nat
  protocol : PortProtocol
deriving DecidableEq, Repr

/-- Modelled from the spec: pkg/port is not under src. The target address of a
mapping is the pair targetIP, targetPort rendered as an address string. -/
def Mapping.targetAddress (m : Mapping) : String :=
  m.targetIP ++ ":" ++ toString m.targetPortNumber

/-! ## Choice of the SSH port inside the container

`chooseSSHPort` (src/unnamed/part_005, lines 224-249) and
`GetFreeSSHPortInContainer` (src/unnamed/part_001, lines 109-134) are two
textually identical copies of the same function. -/

/-- isInUse (src/unnamed/part_005, lines 242-249): whether any mapping's
ContainerPortNumber equals the given port. -/
def isInUse (mm : List Mapping) (containerPort : Nat) : Bool :=
  mm.any fun m => m.containerPortNumber == containerPort

/-- The loop `for i := min; i <= max; i++` in chooseSSHPort, with the number of
remaining iterations made explicit as fuel. -/
def sweepPorts (mm : List Mapping) : Nat → Nat → Except String Nat
  | _, 0 => .error "Failed to choose a port for the SSH connection - all ports in use"
  | i, fuel + 1 => if isInUse mm i then sweepPorts mm (i + 1) fuel else .ok i

/-- chooseSSHPort (src/unnamed/part_005): 2222, then 22, then the sweep over
49152..65535 (16384 = 65535 - 49152 + 1 iterations). -/
def chooseSSHPort (mm : List Mapping) : Except String Nat :=
  if !(isInUse mm 2222) then .ok 2222
  else if !(isInUse mm 22) then .ok 22
  else sweepPorts mm 49152 16384

/-- GetFreeSSHPortInContainer (src/unnamed/part_001) is the same function as
chooseSSHPort, copied into pkg/net. -/
def GetFreeSSHPortInContainer (mm : List Mapping) : Except String Nat :=
  chooseSSHPort mm

lemma sweepPorts_ok_of_first (mm : List Mapping) :
    ∀ fuel i p, i ≤ p → p < i + fuel → isInUse mm p = false →
      (∀ q, i ≤ q → q < p → isInUse mm q = true) →
      sweepPorts mm i fuel = .ok p := by
  intro fuel
  induction fuel with
  | zero => intro i p h1 h2 _ _; omega
  | succ n ih =>
    intro i p h1 h2 h3 h4
    by_cases hi : isInUse mm i = true
    · have hip : i < p := by
        rcases Nat.lt_or_ge i p with h | h
        · exact h
        · have : i = p := le_antisymm h1 (by omega)
          rw [this] at hi; rw [hi] at h3; cases h3
      have : sweepPorts mm i (n + 1) = sweepPorts mm (i + 1) n := by
        simp [sweepPorts, hi]
      rw [this]
      exact ih (i + 1) p (by omega) (by omega) h3 (fun q hq1 hq2 => h4 q (by omega) hq2)
    · have hi' : isInUse mm i = false := by simpa using hi
      have hip : i = p := by
        rcases Nat.lt_or_ge i p with h | h
        · have := h4 i le_rfl h
          rw [this] at hi'; cases hi'
        · exact le_antisymm h1 (by omega)
      subst hip
      simp [sweepPorts, hi']

lemma sweepPorts_error_of_all_used (mm : List Mapping) :
    ∀ fuel i, (∀ q, i ≤ q → q < i + fuel → isInUse mm q = true) →
      sweepPorts mm i fuel =
        .error "Failed to choose a port for the SSH connection - all ports in use" := by
  intro fuel
  induction fuel with
  | zero => intro i _; rfl
  | succ n ih =>
    intro i h
    have hi : isInUse mm i = true := h i le_rfl (by omega)
    have : sweepPorts mm i (n + 1) = sweepPorts mm (i + 1) n := by
      simp [sweepPorts, hi]
    rw [this]
    exact ih (i + 1) (fun q hq1 hq2 => h q (by omega) (by omega))

lemma sweepPorts_ok_inv (mm : List Mapping) :
    ∀ fuel i p, sweepPorts mm i fuel = .ok p →
      i ≤ p ∧ p < i + fuel ∧ isInUse mm p = false := by
  intro fuel
  induction fuel with
  | zero => intro i p h; simp [sweepPorts] at h
  | succ n ih =>
    intro i p h
    by_cases hi : isInUse mm i = true
    · have : sweepPorts mm i (n + 1) = sweepPorts mm (i + 1) n := by
        simp [sweepPorts, hi]
      rw [this] at h
      have := ih (i + 1) p h
      exact ⟨by omega, by omega, this.2.2⟩
    · have hi' : isInUse mm i = false := by simpa using hi
      have : sweepPorts mm i (n + 1) = .ok i := by simp [sweepPorts, hi']
      rw [this] at h
      cases h
      exact ⟨le_rfl, by omega, hi'⟩

/-- C8. The chosen remote SSH port is 2222 when free among the container ports,
else 22 when free, else the least port of 49152..65535 not used by any mapping;
an error arises exactly when every candidate is taken; a returned port is never
one of the container ports. -/
theorem c8_ssh_port_choice (mm : List Mapping) :
    (isInUse mm 2222 = false → chooseSSHPort mm = .ok 2222)
    ∧ (isInUse mm 2222 = true → isInUse mm 22 = false → chooseSSHPort mm = .ok 22)
    ∧ (∀ p, chooseSSHPort mm = .ok p → isInUse mm p = false)
    ∧ (isInUse mm 2222 = true → isInUse mm 22 = true →
        ∀ p, 49152 ≤ p → p ≤ 65535 → isInUse mm p = false →
          (∀ q, 49152 ≤ q → q < p → isInUse mm q = true) →
          chooseSSHPort mm = .ok p)
    ∧ ((∃ e, chooseSSHPort mm = .error e) ↔
        (isInUse mm 2222 = true ∧ isInUse mm 22 = true ∧
          ∀ q, 49152 ≤ q → q ≤ 65535 → isInUse mm q = true)) := by
  refine ⟨?_, ?_, ?_, ?_, ?_⟩
  · intro h; simp [chooseSSHPort, h]
  · intro h1 h2; simp [chooseSSHPort, h1, h2]
  · intro p hp
    by_cases h1 : isInUse mm 2222 = false
    · simp [chooseSSHPort, h1] at hp; rw [← hp]; exact h1
    · have h1' : isInUse mm 2222 = true := by simpa using h1
      by_cases h2 : isInUse mm 22 = false
      · simp [chooseSSHPort, h1', h2] at hp; rw [← hp]; exact h2
      · have h2' : isInUse mm 22 = true := by simpa using h2
        have : chooseSSHPort mm = sweepPorts mm 49152 16384 := by
          simp [chooseSSHPort, h1', h2']
        rw [this] at hp
        exact (sweepPorts_ok_inv mm 16384 49152 p hp).2.2
  · intro h1 h2 p hp1 hp2 hp3 hp4
    have : chooseSSHPort mm = sweepPorts mm 49152 16384 := by
      simp [chooseSSHPort, h1, h2]
    rw [this]
    exact sweepPorts_ok_of_first mm 16384 49152 p hp1 (by omega) hp3 hp4
  · constructor
    · rintro ⟨e, he⟩
      by_cases h1 : isInUse mm 2222 = false
      · simp [chooseSSHPort, h1] at he
      · have h1' : isInUse mm 2222 = true := by simpa using h1
        by_cases h2 : isInUse mm 22 = false
        · simp [chooseSSHPort, h1', h2] at he
        · have h2' : isInUse mm 22 = true := by simpa using h2
          refine ⟨h1', h2', ?_⟩
          intro q hq1 hq2
          by_contra hq
          have hq' : isInUse mm q = false := by simpa using hq
          have : chooseSSHPort mm = sweepPorts mm 49152 16384 := by
            simp [chooseSSHPort, h1', h2']
          rw [this] at he
          rcases sweepPorts_ok_inv mm 16384 49152 q with _
          -- there is a free port in range, so the sweep cannot error:
          -- take the least free port and contradict `he`.
          have hex : ∃ r, 49152 ≤ r ∧ r ≤ 65535 ∧ isInUse mm r = false := ⟨q, hq1, hq2, hq'⟩
          obtain ⟨r, hr⟩ := hex
          -- least free port at or above 49152
          have hleast := Nat.find_spec (⟨r, ⟨hr.1, hr.2.1, hr.2.2⟩⟩ :
            ∃ s, 49152 ≤ s ∧ s ≤ 65535 ∧ isInUse mm s = false)
          set s := Nat.find (⟨r, ⟨hr.1, hr.2.1, hr.2.2⟩⟩ :
            ∃ s, 49152 ≤ s ∧ s ≤ 65535 ∧ isInUse mm s = false) with hs
          have hok : sweepPorts mm 49152 16384 = .ok s := by
            refine sweepPorts_ok_of_first mm 16384 49152 s hleast.1 (by omega) hleast.2.2 ?_
            intro t ht1 ht2
            by_contra ht
            have ht' : isInUse mm t = false := by simpa using ht
            have := Nat.find_min (⟨r, ⟨hr.1, hr.2.1, hr.2.2⟩⟩ :
              ∃ s, 49152 ≤ s ∧ s ≤ 65535 ∧ isInUse mm s = false) (show t < s from ht2)
            exact this ⟨ht1, by omega, ht'⟩
          rw [hok] at he; cases he
    · rintro ⟨h1, h2, h3⟩
      have : chooseSSHPort mm = sweepPorts mm 49152 16384 := by
        simp [chooseSSHPort, h1, h2]
      rw [this]
      exact ⟨_, sweepPorts_error_of_all_used mm 16384 49152
        (fun q hq1 hq2 => h3 q hq1 (by omega))⟩

/-- Witness for c8_ssh_port_choice: with no mappings the port 2222 is free and chosen. -/
theorem c8_ssh_port_choice_witness :
    chooseSSHPort [] = .ok 2222 :=
  (c8_ssh_port_choice []).1 (by decide)

/-! ## KubeForwarder (src/pkg/portforward/kube.go)

State touched by `KubeForwarder.Stop` (lines 146-158): the `stopRequested`
flag `shouldStop` guarded by the mutex, the `stopCh` channel, and the
`sync.Once` guard `stopChClose`. Closing an already-closed Go channel would
panic; the model records such a panic explicitly. -/

structure ForwarderStopState where
  shouldStop : Bool
  stopChClosed : Bool
  stopCloseCount : Nat
  onceDone : Bool
  panicked : Bool
deriving DecidableEq, Repr

/-- The state of a freshly built KubeForwarder (NewKubeForwarder,
src/pkg/portforward/kube.go lines 44-59). -/
def forwarderInit : ForwarderStopState :=
  { shouldStop := false, stopChClosed := false, stopCloseCount := 0,
    onceDone := false, panicked := false }

/-- KubeForwarder.Stop (src/pkg/portforward/kube.go lines 146-158): inside a
sync.Once it sets shouldStop under the mutex and closes stopCh; it returns nil. -/
def kubeForwarderStop (s : ForwarderStopState) : ForwarderStopState × Option String :=
  if s.onceDone then (s, none)
  else
    let s1 : ForwarderStopState := { s with onceDone := true, shouldStop := true }
    let s2 : ForwarderStopState :=
      if s1.stopChClosed then { s1 with panicked := true }
      else { s1 with stopChClosed := true, stopCloseCount := s1.stopCloseCount + 1 }
    (s2, none)

/-- The state after n successive calls of Stop. -/
def stopIter : Nat → ForwarderStopState
  | 0 => forwarderInit
  | n + 1 => (kubeForwarderStop (stopIter n)).1

lemma stopIter_succ_fixed (n : Nat) :
    stopIter (n + 1) =
      { shouldStop := true, stopChClosed := true, stopCloseCount := 1,
        onceDone := true, panicked := false } := by
  induction n with
  | zero => rfl
  | succ m ih =>
    show (kubeForwarderStop (stopIter (m + 1))).1 = _
    rw [ih]
    rfl

/-- C9. KubeForwarder.Stop is idempotent: after any positive number of calls the
stop channel has been closed exactly once, the stop flag is set, no call has
panicked, and Stop always returns nil. -/
theorem c9_stop_idempotent (n : Nat) (h : 1 ≤ n) :
    (stopIter n).stopCloseCount = 1
    ∧ (stopIter n).shouldStop = true
    ∧ (stopIter n).panicked = false
    ∧ ∀ s, (kubeForwarderStop s).2 = none := by
  obtain ⟨m, rfl⟩ : ∃ m, n = m + 1 := ⟨n - 1, by omega⟩
  rw [stopIter_succ_fixed]
  refine ⟨rfl, rfl, rfl, ?_⟩
  intro s
  by_cases hs : s.onceDone <;> simp [kubeForwarderStop, hs]

/-- Witness for c9_stop_idempotent at three calls. -/
theorem c9_stop_idempotent_witness :
    (stopIter 3).stopCloseCount = 1 ∧ (stopIter 3).shouldStop = true :=
  ⟨(c9_stop_idempotent 3 (by decide)).1, (c9_stop_idempotent 3 (by decide)).2.1⟩

/-! ## The KubeForwarder worker loop (src/pkg/portforward/kube.go lines 61-136)

`KubeForwarder.Run` starts a background goroutine and immediately returns the
ready channel together with a nil error. The goroutine first builds the SPDY
transport (an error there makes it return early, before the loop and before
`close(o.doneCh)`), then loops: each iteration waits on
`select { case <-time.After(500ms) ... case <-ctx.Done() }`; after the 500 ms
tick it calls `k8sportforward.New` (an error is logged, loop continues), then
`pfwd.ForwardPorts()` (an error is logged, loop continues); when ForwardPorts
returns nil it reads `shouldStop` under the mutex and either breaks the loop or
logs and retries. `close(o.doneCh)` runs after the loop only.

Each loop iteration's externally determined outcome is a `PfEvent`; the
observable actions of an iteration are `PfAct`s. -/

inductive PfEvent
  | ctxDone
  | newErr
  | fwdErr
  | fwdOk (stopRequested : Bool)
deriving DecidableEq, Repr

inductive PfAct
  | wait500
  | newSession
  | runForward
  | logErr
  | logRetry
  | breakLoop
deriving DecidableEq, Repr

/-- One iteration of the worker loop: the actions performed and whether the
loop is exited. -/
def pfIter : PfEvent → List PfAct × Bool
  | .ctxDone => ([.breakLoop], true)
  | .newErr => ([.wait500, .newSession, .logErr], false)
  | .fwdErr => ([.wait500, .newSession, .runForward, .logErr], false)
  | .fwdOk b =>
      ([.wait500, .newSession, .runForward] ++ if b then [.breakLoop] else [.logRetry], b)

/-- The worker loop over a list of iteration events; returns the action trace
and whether the loop was exited (false when the event list runs out with the
loop still going). -/
def pfLoop : List PfEvent → List PfAct × Bool
  | [] => ([], false)
  | e :: es =>
    let (acts, ex) := pfIter e
    if ex then (acts, true)
    else
      let (acts2, ex2) := pfLoop es
      (acts ++ acts2, ex2)

structure PfRunResult where
  trace : List PfAct
  doneClosed : Bool
  workerExited : Bool
  runReturnErr : Option String
deriving DecidableEq, Repr

/-- KubeForwarder.Run (src/pkg/portforward/kube.go lines 61-136).
`transportErr` is the outcome of `spdy.RoundTripperFor`; on that error the
worker goroutine returns before the loop, without closing doneCh. The function
itself always returns the ready channel and a nil error. -/
def kubeForwarderRun (transportErr : Bool) (events : List PfEvent) : PfRunResult :=
  if transportErr then
    { trace := [], doneClosed := false, workerExited := true, runReturnErr := none }
  else
    let (tr, ex) := pfLoop events
    { trace := tr, doneClosed := ex, workerExited := ex, runReturnErr := none }

/-- C7 counterexample. On first entry the worker does not open a session
immediately: the very first action of the loop is the 500 ms wait, not the
session dial. -/
theorem c7_counterexample :
    (kubeForwarderRun false [PfEvent.fwdOk true]).trace.head? = some PfAct.wait500
    ∧ (kubeForwarderRun false [PfEvent.fwdOk true]).trace.head? ≠ some PfAct.newSession := by
  constructor <;> decide

/-- C7 (amended). Every session attempt of the worker loop is preceded by the
500 ms wait, including the first; a normally ended session makes the loop exit
exactly when stopRequested is set and otherwise log and re-dial; context
cancellation exits the loop; and given the transport setup succeeded, the done
channel is closed exactly when the loop exits, while a transport setup failure
makes the worker exit without closing the done channel. -/
theorem c7_worker_loop_amended :
    (∀ e, PfAct.newSession ∈ (pfIter e).1 → (pfIter e).1.head? = some PfAct.wait500)
    ∧ (∀ b, (pfIter (PfEvent.fwdOk b)).2 = b)
    ∧ (∀ b, b = false → PfAct.logRetry ∈ (pfIter (PfEvent.fwdOk b)).1)
    ∧ (pfIter PfEvent.ctxDone).2 = true
    ∧ (∀ evs, (kubeForwarderRun false evs).doneClosed = (kubeForwarderRun false evs).workerExited)
    ∧ (∀ evs, (kubeForwarderRun true evs).doneClosed = false
        ∧ (kubeForwarderRun true evs).workerExited = true) := by
  refine ⟨?_, ?_, ?_, rfl, ?_, ?_⟩
  · intro e
    cases e with
    | ctxDone => intro h; simp [pfIter] at h
    | newErr => intro _; rfl
    | fwdErr => intro _; rfl
    | fwdOk b => intro _; cases b <;> rfl
  · intro b; cases b <;> rfl
  · intro b hb; subst hb; decide
  · intro evs; simp [kubeForwarderRun]
  · intro evs; constructor <;> rfl

/-- Witness for c7_worker_loop_amended: a session attempt after a New error is
preceded by the 500 ms wait, and a normal session end with stopRequested unset
logs a retry. -/
theorem c7_worker_loop_amended_witness :
    (pfIter PfEvent.newErr).1.head? = some PfAct.wait500
    ∧ PfAct.logRetry ∈ (pfIter (PfEvent.fwdOk false)).1 :=
  ⟨c7_worker_loop_amended.1 PfEvent.newErr (by decide),
   c7_worker_loop_amended.2.2.1 false rfl⟩

/-- C10. KubeForwarder.Run returns a nil error for every transport outcome and
every sequence of loop events: session failures appear only as logged actions
inside the worker trace, never as a returned error. -/
theorem c10_run_always_nil (transportErr : Bool) (events : List PfEvent) :
    (kubeForwarderRun transportErr events).runReturnErr = none
    ∧ PfAct.logErr ∈ (pfIter PfEvent.newErr).1
    ∧ (pfIter PfEvent.newErr).2 = false
    ∧ PfAct.logErr ∈ (pfIter PfEvent.fwdErr).1
    ∧ (pfIter PfEvent.fwdErr).2 = false := by
  refine ⟨?_, by decide, rfl, by decide, rfl⟩
  by_cases h : transportErr <;> simp [kubeForwarderRun, h]

/-! ## SSHTunnel.Dial (src/pkg/tunnel/util.go lines 60-100)

The dial uses `wait.PollImmediateInfinite(time.Second, cond)`: the condition
runs immediately, then once per second, forever, until it returns true or an
error. Inside the condition (one attempt): `sshAttempts++`; on a dial error,
if `ctx.Err() != nil` the condition aborts with `ctx.Err()` (and Dial maps
that to the `graceful.Interrupted` sentinel, logging at V(2)); otherwise, when
`sshAttempts > 3` a retry message is logged at V(2), and in every failed
attempt the error is logged at V(1). Each attempt's externally determined
outcome is a `DialEvent`. -/

inductive DialEvent
  | ok
  | fail (ctxCancelled : Bool)
deriving DecidableEq, Repr

inductive DialLog
  | v1ErrorDialing
  | v2Retrying
  | v2InterruptedMsg
deriving DecidableEq, Repr

inductive DialOutcome
  | connected
  | interruptedOutcome
  | polling
deriving DecidableEq, Repr

structure DialAttempt where
  waitedMsBefore : Nat
  logs : List DialLog
deriving DecidableEq, Repr

/-- The polling loop of SSHTunnel.Dial. The first argument is the number of
attempts already made (`sshAttempts` before the increment of this attempt);
the result is the per-attempt trace and the final outcome. `polling` means the
supplied event list ran out with the loop still retrying. -/
def sshDialLoop : Nat → List DialEvent → List DialAttempt × DialOutcome
  | _, [] => ([], .polling)
  | k, e :: es =>
    let waited := if k = 0 then 0 else 1000
    match e with
    | .ok => ([{ waitedMsBefore := waited, logs := [] }], .connected)
    | .fail true =>
        ([{ waitedMsBefore := waited, logs := [.v2InterruptedMsg] }], .interruptedOutcome)
    | .fail false =>
        let lgs := (if 3 < k + 1 then [DialLog.v2Retrying] else []) ++ [DialLog.v1ErrorDialing]
        let (rest, out) := sshDialLoop (k + 1) es
        ({ waitedMsBefore := waited, logs := lgs } :: rest, out)

/-- SSHTunnel.Dial, starting with zero attempts made. -/
def sshTunnelDial (events : List DialEvent) : List DialAttempt × DialOutcome :=
  sshDialLoop 0 events

/-- C5 counterexample. The very first failed attempt already produces log
output: the dial error is logged at verbosity 1, so the first three attempts
are not silent. -/
theorem c5_counterexample :
    ((sshTunnelDial [DialEvent.fail false]).1.map DialAttempt.logs)
      = [[DialLog.v1ErrorDialing]]
    ∧ ((sshTunnelDial [DialEvent.fail false]).1.map DialAttempt.logs) ≠ [[]] := by
  constructor <;> decide

lemma sshDialLoop_waited (k : Nat) (evs : List DialEvent) (i : Nat) (a : DialAttempt) :
    ((sshDialLoop k evs).1).get? i = some a →
    a.waitedMsBefore = if k + i = 0 then 0 else 1000 := by
  induction evs generalizing k i with
  | nil => intro h; simp [sshDialLoop] at h
  | cons e es ih =>
    intro h
    match e with
    | .ok =>
      rw [show sshDialLoop k (DialEvent.ok :: es)
          = ([{ waitedMsBefore := if k = 0 then 0 else 1000, logs := [] }],
             .connected) from rfl] at h
      match i with
      | 0 =>
        simp at h
        rw [← h]
        by_cases hk : k = 0 <;> simp [hk]
      | i + 1 => simp at h
    | .fail true =>
      rw [show sshDialLoop k (DialEvent.fail true :: es)
          = ([{ waitedMsBefore := if k = 0 then 0 else 1000,
                logs := [.v2InterruptedMsg] }],
             .interruptedOutcome) from rfl] at h
      match i with
      | 0 =>
        simp at h
        rw [← h]
        by_cases hk : k = 0 <;> simp [hk]
      | i + 1 => simp at h
    | .fail false =>
      rw [show sshDialLoop k (DialEvent.fail false :: es)
          = ({ waitedMsBefore := if k = 0 then 0 else 1000,
               logs := (if 3 < k + 1 then [DialLog.v2Retrying] else [])
                 ++ [DialLog.v1ErrorDialing] } :: (sshDialLoop (k + 1) es).1,
              (sshDialLoop (k + 1) es).2) from rfl] at h
      match i with
      | 0 =>
        simp at h
        rw [← h]
        by_cases hk : k = 0 <;> simp [hk]
      | i + 1 =>
        simp only [List.get?_cons_succ] at h
        have hw := ih (k + 1) i h
        rw [hw]
        have h1 : k + 1 + i ≠ 0 := by omega
        have h2 : k + (i + 1) ≠ 0 := by omega
        simp [h1, h2]

lemma sshDialLoop_fail_logs (k : Nat) (evs : List DialEvent) (i : Nat) (a : DialAttempt) :
    evs.get? i = some (DialEvent.fail false) →
    ((sshDialLoop k evs).1).get? i = some a →
    a.logs = if 3 < k + i + 1
      then [DialLog.v2Retrying, DialLog.v1ErrorDialing]
      else [DialLog.v1ErrorDialing] := by
  induction evs generalizing k i with
  | nil => intro h; simp at h
  | cons e es ih =>
    intro hev htr
    match i with
    | 0 =>
      simp at hev
      subst hev
      rw [show sshDialLoop k (DialEvent.fail false :: es)
          = ({ waitedMsBefore := if k = 0 then 0 else 1000,
               logs := (if 3 < k + 1 then [DialLog.v2Retrying] else [])
                 ++ [DialLog.v1ErrorDialing] } :: (sshDialLoop (k + 1) es).1,
              (sshDialLoop (k + 1) es).2) from rfl] at htr
      simp at htr
      rw [← htr]
      by_cases h3 : 3 < k + 1
      · simp [h3]
      · simp [h3]
    | i + 1 =>
      simp only [List.get?_cons_succ] at hev
      match e with
      | .ok => simp [sshDialLoop] at htr
      | .fail true => simp [sshDialLoop] at htr
      | .fail false =>
        rw [show sshDialLoop k (DialEvent.fail false :: es)
            = ({ waitedMsBefore := if k = 0 then 0 else 1000,
                 logs := (if 3 < k + 1 then [DialLog.v2Retrying] else [])
                   ++ [DialLog.v1ErrorDialing] } :: (sshDialLoop (k + 1) es).1,
                (sshDialLoop (k + 1) es).2) from rfl] at htr
        simp only [List.get?_cons_succ] at htr
        have := ih (k + 1) i hev htr
        rw [this]
        have heq : k + 1 + i + 1 = k + (i + 1) + 1 := by omega
        rw [heq]

lemma sshDialLoop_all_fail_polling (evs : List DialEvent) :
    (∀ e ∈ evs, e = DialEvent.fail false) →
    ∀ k, (sshDialLoop k evs).2 = DialOutcome.polling := by
  induction evs with
  | nil => intro _ k; rfl
  | cons e es ih =>
    intro h k
    have he : e = DialEvent.fail false := h e (by simp)
    subst he
    rw [show (sshDialLoop k (DialEvent.fail false :: es)).2
        = (sshDialLoop (k + 1) es).2 from rfl]
    exact ih (fun x hx => h x (by simp [hx])) (k + 1)

/-- C5 (amended). The dial polls immediately and then every second, with no
bound other than success or cancellation: every failed (not cancelled) attempt
logs the dial error at verbosity 1, and from the fourth attempt on an
additional retry message is logged at verbosity 2; an attempt that observes
the cancelled context ends the dial with the Interrupted sentinel; a
successful attempt ends it connected; a run of only failed attempts leaves the
loop still polling, never an ordinary error. -/
theorem c5_dial_amended :
    (∀ evs i a, ((sshTunnelDial evs).1).get? i = some a →
        a.waitedMsBefore = if i = 0 then 0 else 1000)
    ∧ (∀ evs i a, evs.get? i = some (DialEvent.fail false) →
        ((sshTunnelDial evs).1).get? i = some a →
        a.logs = if 3 < i + 1
          then [DialLog.v2Retrying, DialLog.v1ErrorDialing]
          else [DialLog.v1ErrorDialing])
    ∧ (∀ k es, (sshDialLoop k (DialEvent.fail true :: es)).2
        = DialOutcome.interruptedOutcome)
    ∧ (∀ k es, (sshDialLoop k (DialEvent.ok :: es)).2 = DialOutcome.connected)
    ∧ (∀ evs, (∀ e ∈ evs, e = DialEvent.fail false) →
        (sshTunnelDial evs).2 = DialOutcome.polling) := by
  refine ⟨?_, ?_, ?_, ?_, ?_⟩
  · intro evs i a h
    have := sshDialLoop_waited 0 evs i a h
    simpa using this
  · intro evs i a hev htr
    have := sshDialLoop_fail_logs 0 evs i a hev htr
    simpa using this
  · intro k es; rfl
  · intro k es; rfl
  · intro evs h
    exact sshDialLoop_all_fail_polling evs h 0

/-- Witness for c5_dial_amended: in a run of four failed attempts, the fourth
attempt logs the verbosity-2 retry message in addition to the verbosity-1
error, and a cancelled attempt yields the Interrupted outcome. -/
theorem c5_dial_amended_witness :
    ({ waitedMsBefore := 1000,
       logs := [DialLog.v2Retrying, DialLog.v1ErrorDialing] } : DialAttempt).logs
      = (if 3 < 3 + 1
          then [DialLog.v2Retrying, DialLog.v1ErrorDialing]
          else [DialLog.v1ErrorDialing])
    ∧ (sshDialLoop 0 [DialEvent.fail true]).2 = DialOutcome.interruptedOutcome :=
  ⟨c5_dial_amended.2.1
      [DialEvent.fail false, DialEvent.fail false, DialEvent.fail false, DialEvent.fail false]
      3 _ (by decide) (by decide),
   c5_dial_amended.2.2.1 0 []⟩

/-! ## Cluster object creation (src/pkg/tunnel/tunnel.go lines 267-319 Run,
src/unnamed/part_004 CreateService, src/unnamed/part_003 CreateConfigMap,
src/pkg/tunnel/pod.go CreatePod)

`Tunnel.Run` creates the objects by calling `CreateService`, then
`CreateConfigMap`, then `CreatePod`; `CreatePod` first creates the
ServiceAccount (ignoring an IsAlreadyExists error) and then the Pod. Every
other creation error aborts the run. -/

inductive KObj
  | service
  | configMap
  | serviceAccount
  | pod
deriving DecidableEq, Repr

inductive CreateRes
  | created
  | alreadyExists
  | otherErr
deriving DecidableEq, Repr, Fintype

structure CreateEnv where
  svcRes : CreateRes
  cmRes : CreateRes
  saRes : CreateRes
  podRes : CreateRes
deriving DecidableEq, Repr, Fintype

structure CreateOutcome where
  attempted : List KObj
  failedAt : Option KObj
deriving DecidableEq, Repr

/-- The creation sequence performed by Tunnel.Run: CreateService (any error
fails), CreateConfigMap (any error fails), then inside CreatePod the
ServiceAccount (only a non-IsAlreadyExists error fails) and the Pod (any error
fails). `attempted` lists the create calls issued, in order. -/
def tunnelCreateSequence (e : CreateEnv) : CreateOutcome :=
  if e.svcRes != CreateRes.created then
    { attempted := [KObj.service], failedAt := some KObj.service }
  else if e.cmRes != CreateRes.created then
    { attempted := [KObj.service, KObj.configMap], failedAt := some KObj.configMap }
  else if e.saRes == CreateRes.otherErr then
    { attempted := [KObj.service, KObj.configMap, KObj.serviceAccount],
      failedAt := some KObj.serviceAccount }
  else if e.podRes != CreateRes.created then
    { attempted := [KObj.service, KObj.configMap, KObj.serviceAccount, KObj.pod],
      failedAt := some KObj.pod }
  else
    { attempted := [KObj.service, KObj.configMap, KObj.serviceAccount, KObj.pod],
      failedAt := none }

/-- C2 counterexample. With every creation succeeding, the controller creates
Service, ConfigMap, ServiceAccount, Pod in that order, not ServiceAccount,
ConfigMap, Pod, Service as claimed. -/
theorem c2_counterexample :
    (tunnelCreateSequence
        { svcRes := .created, cmRes := .created, saRes := .created, podRes := .created }).attempted
      = [KObj.service, KObj.configMap, KObj.serviceAccount, KObj.pod]
    ∧ (tunnelCreateSequence
        { svcRes := .created, cmRes := .created, saRes := .created, podRes := .created }).attempted
      ≠ [KObj.serviceAccount, KObj.configMap, KObj.pod, KObj.service] := by
  constructor <;> decide

/-- C2 (amended). The controller creates the cluster objects in the order
Service, ConfigMap, ServiceAccount, Pod; a ServiceAccount creation error
satisfying IsAlreadyExists is treated as success, and any other creation error
makes the run fail at that object, with no later object attempted. -/
theorem c2_creation_order_amended (e : CreateEnv) :
    ((tunnelCreateSequence e).failedAt = none ↔
      (e.svcRes = .created ∧ e.cmRes = .created
        ∧ e.saRes ≠ .otherErr ∧ e.podRes = .created))
    ∧ ((tunnelCreateSequence e).failedAt = none →
        (tunnelCreateSequence e).attempted
          = [KObj.service, KObj.configMap, KObj.serviceAccount, KObj.pod])
    ∧ (e.saRes = .alreadyExists → e.svcRes = .created → e.cmRes = .created →
        e.podRes = .created → (tunnelCreateSequence e).failedAt = none)
    ∧ (∀ o, (tunnelCreateSequence e).failedAt = some o →
        o ∈ (tunnelCreateSequence e).attempted
        ∧ (tunnelCreateSequence e).attempted.getLast? = some o) := by
  revert e; decide

/-- Witness for c2_creation_order_amended: a run whose ServiceAccount creation
reports IsAlreadyExists still succeeds and attempts all four objects. -/
theorem c2_creation_order_amended_witness :
    (tunnelCreateSequence
        { svcRes := .created, cmRes := .created,
          saRes := .alreadyExists, podRes := .created }).failedAt = none
    ∧ (tunnelCreateSequence
        { svcRes := .created, cmRes := .created,
          saRes := .alreadyExists, podRes := .created }).attempted
      = [KObj.service, KObj.configMap, KObj.serviceAccount, KObj.pod] :=
  ⟨(c2_creation_order_amended
      { svcRes := .created, cmRes := .created,
        saRes := .alreadyExists, podRes := .created }).2.2.1 rfl rfl rfl rfl,
   (c2_creation_order_amended
      { svcRes := .created, cmRes := .created,
        saRes := .alreadyExists, podRes := .created }).2.1
     ((c2_creation_order_amended
        { svcRes := .created, cmRes := .created,
          saRes := .alreadyExists, podRes := .created }).2.2.1 rfl rfl rfl rfl)⟩

/-! ## Cleanup (Tunnel.Stop / Tunnel.Cleanup: src/pkg/tunnel/util.go lines
325-335 and src/pkg/tunnel/tunnel.go lines 109-117; CleanupService
src/unnamed/part_004 lines 55-69; CleanupPod src/pkg/tunnel/pod.go lines
156-177; CleanupConfigMap src/unnamed/part_003 lines 214-225)

Cleanup calls CleanupService, then CleanupPod (which deletes the Pod and then
the ServiceAccount), then CleanupConfigMap. Each helper logs a failed deletion
and writes a message to ErrOut but returns nil unconditionally, so a failure
never stops the remaining deletions and Cleanup itself always returns nil. -/

structure CleanupEnv where
  svcPresent : Bool
  podPresent : Bool
  saPresent : Bool
  delSvcFails : Bool
  delPodFails : Bool
  delSaFails : Bool
  delCmFails : Bool
deriving DecidableEq, Repr

structure CleanupResult where
  attempted : List KObj
  loggedFailures : List KObj
  returnedErr : Option String
deriving DecidableEq, Repr

/-- Tunnel.Cleanup / Tunnel.Stop: the deletion attempts issued, the failures
that were logged, and the returned error. The nil-guards mirror the source:
Service, Pod and ServiceAccount are deleted only when their field is non-nil,
the ConfigMap deletion has no guard. -/
def tunnelCleanup (e : CleanupEnv) : CleanupResult :=
  let svcStep : List KObj × List KObj :=
    if e.svcPresent then ([KObj.service], if e.delSvcFails then [KObj.service] else [])
    else ([], [])
  let podStep : List KObj × List KObj :=
    if e.podPresent then ([KObj.pod], if e.delPodFails then [KObj.pod] else [])
    else ([], [])
  let saStep : List KObj × List KObj :=
    if e.saPresent then
      ([KObj.serviceAccount], if e.delSaFails then [KObj.serviceAccount] else [])
    else ([], [])
  let cmStep : List KObj × List KObj :=
    ([KObj.configMap], if e.delCmFails then [KObj.configMap] else [])
  { attempted := svcStep.1 ++ podStep.1 ++ saStep.1 ++ cmStep.1,
    loggedFailures := svcStep.2 ++ podStep.2 ++ saStep.2 ++ cmStep.2,
    returnedErr := none }

/-- C3 counterexample. With all four objects present and every deletion
failing, Cleanup still issues all four deletions and logs all four failures,
but it returns nil: no composite error reports the failures. -/
theorem c3_counterexample :
    (tunnelCleanup
        { svcPresent := true, podPresent := true, saPresent := true,
          delSvcFails := true, delPodFails := true, delSaFails := true,
          delCmFails := true }).loggedFailures
      = [KObj.service, KObj.pod, KObj.serviceAccount, KObj.configMap]
    ∧ (tunnelCleanup
        { svcPresent := true, podPresent := true, saPresent := true,
          delSvcFails := true, delPodFails := true, delSaFails := true,
          delCmFails := true }).returnedErr = none := by
  constructor <;> decide

/-- C3 (amended). A deletion error on any one object does not short-circuit the
remaining deletion attempts: the set of attempted deletions depends only on
which objects exist, never on the failures; every failure is logged; but the
final outcome of Cleanup is always nil, it never reports the failures as a
composite error. -/
theorem c3_cleanup_amended (e : CleanupEnv) :
    (tunnelCleanup e).attempted
      = ((if e.svcPresent then [KObj.service] else [])
          ++ (if e.podPresent then [KObj.pod] else [])
          ++ (if e.saPresent then [KObj.serviceAccount] else [])
          ++ [KObj.configMap])
    ∧ (tunnelCleanup e).loggedFailures
      = ((if e.svcPresent && e.delSvcFails then [KObj.service] else [])
          ++ (if e.podPresent && e.delPodFails then [KObj.pod] else [])
          ++ (if e.saPresent && e.delSaFails then [KObj.serviceAccount] else [])
          ++ (if e.delCmFails then [KObj.configMap] else []))
    ∧ (tunnelCleanup e).returnedErr = none := by
  rcases e with ⟨a, b, c, d, f, g, h⟩
  cases a <;> cases b <;> cases c <;> cases d <;> cases f <;> cases g <;> cases h <;> decide

/-! ## Waiting for pod readiness (Tunnel.CreatePod, src/pkg/tunnel/pod.go
lines 125-153)

After creating the Pod, CreatePod watches it and runs
`watchtools.UntilWithoutRetry(ctx, podWatch, condPodReady)`. On a wait error
it classifies, in source order: `watchtools.ErrWatchClosed` becomes an
ordinary error; otherwise a non-nil `ctx.Err()` becomes the
`graceful.Interrupted` sentinel; otherwise `wait.ErrWaitTimeout` becomes the
300 s timeout error; anything else an unknown error. -/

inductive WatchWaitErr
  | watchClosed
  | waitTimeout
  | unknownErr
deriving DecidableEq, Repr

inductive PodWaitResult
  | ready
  | errWatchClosed
  | interruptedRes
  | errTimeout300
  | errUnknown
deriving DecidableEq, Repr

/-- The error classification at the end of Tunnel.CreatePod (src/pkg/tunnel/pod.go
lines 134-150). -/
def classifyPodWaitError (e : WatchWaitErr) (ctxCancelled : Bool) : PodWaitResult :=
  match e with
  | .watchClosed => .errWatchClosed
  | e' =>
    if ctxCancelled then .interruptedRes
    else match e' with
      | .waitTimeout => .errTimeout300
      | _ => .errUnknown

/-- The outcome of the readiness wait in CreatePod: success when
UntilWithoutRetry sees the PodReady=True condition, otherwise the classified
error. -/
def createPodWaitOutcome (waitErr : Option WatchWaitErr) (ctxCancelled : Bool) :
    PodWaitResult :=
  match waitErr with
  | none => .ready
  | some e => classifyPodWaitError e ctxCancelled

/-- C6. If the context is cancelled after the pod is created but before the
watch observes PodReady=True (so the wait fails with anything but the
server-side watch-closed error), CreatePod returns the Interrupted sentinel
and Cleanup still succeeds, returning nil; a watch closed by the server before
readiness yields an error, and so does exceeding the 300-second bound. -/
theorem c6_pod_wait_interrupted (e : WatchWaitErr) (h : e ≠ WatchWaitErr.watchClosed) :
    classifyPodWaitError e true = PodWaitResult.interruptedRes
    ∧ (∀ c, classifyPodWaitError WatchWaitErr.watchClosed c = PodWaitResult.errWatchClosed)
    ∧ classifyPodWaitError WatchWaitErr.waitTimeout false = PodWaitResult.errTimeout300
    ∧ (∀ env : CleanupEnv, (tunnelCleanup env).returnedErr = none) := by
  refine ⟨?_, ?_, rfl, ?_⟩
  · cases e with
    | watchClosed => exact absurd rfl h
    | waitTimeout => rfl
    | unknownErr => rfl
  · intro c; rfl
  · intro env; rfl

/-- Witness for c6_pod_wait_interrupted: a cancelled context whose wait ended
with the generic timeout error of the watch utility yields Interrupted. -/
theorem c6_pod_wait_interrupted_witness :
    classifyPodWaitError WatchWaitErr.waitTimeout true = PodWaitResult.interruptedRes :=
  (c6_pod_wait_interrupted WatchWaitErr.waitTimeout (by decide)).1

/-! ## SSHTunnel.RunPortMappings (src/pkg/tunnel/util.go lines 110-175)

For each mapping the method requests a remote listener on
`0.0.0.0:<containerPort>` through the SSH client. On a listen error with
ContinueOnTunnelError=false it closes every previously opened listener and
returns an error. On a listen error with ContinueOnTunnelError=true it logs
"failed to listen on remote ...: No tunnel created." and then falls through
to the same `pairs = append(pairs, ...)` statement as the success path, so a
forwarder pair whose listener is the nil value is still appended, and the
goroutine started later in the function calls `p.f.Open(p.l)` on that nil
listener. The listen success of each container port is supplied by the
`listenOk` oracle. -/

structure FwdPair where
  targetAddr : String
  listener : Option Nat
deriving DecidableEq, Repr

structure RPMResult where
  pairs : List FwdPair
  closedListeners : List Nat
  err : Option String
deriving DecidableEq, Repr

/-- The `for _, m := range portMappings` loop of RunPortMappings, carrying the
`pairs` accumulator. `closedListeners` records the container ports whose
listeners were closed on the ContinueOnTunnelError=false failure path. -/
def runPortMappingsLoop (continueOnErr : Bool) (listenOk : Nat → Bool) :
    List Mapping → List FwdPair → RPMResult
  | [], pairs => { pairs := pairs, closedListeners := [], err := none }
  | m :: rest, pairs =>
    if listenOk m.containerPortNumber then
      runPortMappingsLoop continueOnErr listenOk rest
        (pairs ++ [{ targetAddr := m.targetAddress,
                     listener := some m.containerPortNumber }])
    else if !continueOnErr then
      { pairs := pairs,
        closedListeners := pairs.filterMap FwdPair.listener,
        err := some ("failed to listen on remote 0.0.0.0:"
          ++ toString m.containerPortNumber) }
    else
      runPortMappingsLoop continueOnErr listenOk rest
        (pairs ++ [{ targetAddr := m.targetAddress, listener := none }])

/-- SSHTunnel.RunPortMappings with the empty initial accumulator. -/
def runPortMappings (continueOnErr : Bool) (listenOk : Nat → Bool)
    (ms : List Mapping) : RPMResult :=
  runPortMappingsLoop continueOnErr listenOk ms []

/-- C4. At the failing input (ContinueOnTunnelError=true, one mapping whose
remote listen fails) RunPortMappings returns without error yet appends a
forwarder pair whose listener is nil for the failed mapping, so the function
later starts a forwarder on that nil listener instead of leaving the mapping
out; with ContinueOnTunnelError=false the same failure closes the previously
opened listeners and returns an error, as the claim states. -/
theorem c4_nil_listener_pair :
    (runPortMappings true (fun _ => false)
        [{ targetIP := "127.0.0.1", targetPortNumber := 8080,
           containerPortNumber := 80, protocol := .tcp }]).err = none
    ∧ (runPortMappings true (fun _ => false)
        [{ targetIP := "127.0.0.1", targetPortNumber := 8080,
           containerPortNumber := 80, protocol := .tcp }]).pairs
      = [{ targetAddr := "127.0.0.1:8080", listener := none }]
    ∧ (runPortMappings false (fun p => p == 80)
        [{ targetIP := "127.0.0.1", targetPortNumber := 8080,
           containerPortNumber := 80, protocol := .tcp },
         { targetIP := "127.0.0.1", targetPortNumber := 9090,
           containerPortNumber := 90, protocol := .tcp }]).err
      = some "failed to listen on remote 0.0.0.0:90"
    ∧ (runPortMappings false (fun p => p == 80)
        [{ targetIP := "127.0.0.1", targetPortNumber := 8080,
           containerPortNumber := 80, protocol := .tcp },
         { targetIP := "127.0.0.1", targetPortNumber := 9090,
           containerPortNumber := 90, protocol := .tcp }]).closedListeners
      = [80] := by
  refine ⟨rfl, rfl, rfl, rfl⟩

lemma runPortMappingsLoop_false_ok (listenOk : Nat → Bool) :
    ∀ (ms : List Mapping) (acc : List FwdPair),
      (runPortMappingsLoop false listenOk ms acc).err = none →
      (runPortMappingsLoop false listenOk ms acc).pairs
        = acc ++ ms.map (fun m =>
            { targetAddr := m.targetAddress,
              listener := some m.containerPortNumber }) := by
  intro ms
  induction ms with
  | nil => intro acc _; simp [runPortMappingsLoop]
  | cons m rest ih =>
    intro acc herr
    by_cases hl : listenOk m.containerPortNumber = true
    · have hstep : runPortMappingsLoop false listenOk (m :: rest) acc
          = runPortMappingsLoop false listenOk rest
              (acc ++ [{ targetAddr := m.targetAddress,
                         listener := some m.containerPortNumber }]) := by
        simp [runPortMappingsLoop, hl]
      rw [hstep] at herr ⊢
      rw [ih _ herr]
      simp
    · have hl' : listenOk m.containerPortNumber = false := by simpa using hl
      have hstep : runPortMappingsLoop false listenOk (m :: rest) acc
          = { pairs := acc,
              closedListeners := acc.filterMap FwdPair.listener,
              err := some ("failed to listen on remote 0.0.0.0:"
                ++ toString m.containerPortNumber) } := by
        simp [runPortMappingsLoop, hl']
      rw [hstep] at herr
      simp at herr

/-! ## Tunnel.Run (src/pkg/tunnel/tunnel.go lines 267-319)

Run sequences: the creation of Service, ConfigMap, ServiceAccount and Pod
(with the pod readiness wait inside CreatePod), the start of the
KubeForwarder, the select on its ready channel against ctx.Done, the SSH dial,
and RunPortMappings; only after all of these have returned without error does
it `close(o.readyCh)` and return. Every branch before that returns without
touching readyCh, so the channel is closed at most once. -/

structure TunnelEnv where
  svcRes : CreateRes
  cmRes : CreateRes
  saRes : CreateRes
  podRes : CreateRes
  podWaitErr : Option WatchWaitErr
  podWaitCtxCancelled : Bool
  kfReadyFirst : Bool
  dialEvents : List DialEvent
  continueOnTunnelError : Bool
  listenOk : Nat → Bool
  mappings : List Mapping

inductive TunnelRunExit
  | errored
  | interruptedExit
  | blocked
  | readyExit
deriving DecidableEq, Repr

structure TunnelRunResult where
  readyCloses : Nat
  exit : TunnelRunExit
  openListeners : Nat
  nilListenerPairs : Nat
deriving DecidableEq, Repr

/-- The early-return ladder of Tunnel.Run: the exit taken before readyCh would
be closed, or none when every stage up to and including RunPortMappings
returned without error. The stages appear in source order: object creation
with the pod readiness wait, the select on the KubeForwarder ready channel
against ctx.Done, the SSH dial, RunPortMappings. -/
def tunnelRunGate (env : TunnelEnv) : Option TunnelRunExit :=
  if (tunnelCreateSequence
      { svcRes := env.svcRes, cmRes := env.cmRes,
        saRes := env.saRes, podRes := env.podRes }).failedAt.isSome then
    some .errored
  else
    match createPodWaitOutcome env.podWaitErr env.podWaitCtxCancelled with
    | .ready =>
      if !env.kfReadyFirst then
        -- the select chose ctx.Done(): Run returns ctx.Err()
        some .errored
      else
        match (sshTunnelDial env.dialEvents).2 with
        | .connected =>
          if (runPortMappings env.continueOnTunnelError env.listenOk
              env.mappings).err.isSome then
            some .errored
          else none
        | .interruptedOutcome => some .interruptedExit
        | .polling => some .blocked
    | .interruptedRes => some .interruptedExit
    | _ => some .errored

/-- Tunnel.Run as a function of the outcomes of its external calls.
`readyCloses` counts executions of `close(o.readyCh)`; `openListeners` and
`nilListenerPairs` count the forwarder pairs of RunPortMappings with and
without a live listener. `blocked` stands for a run still inside the unbounded
dial polling. -/
def tunnelRun (env : TunnelEnv) : TunnelRunResult :=
  match tunnelRunGate env with
  | some ex =>
    { readyCloses := 0, exit := ex, openListeners := 0, nilListenerPairs := 0 }
  | none =>
    let r := runPortMappings env.continueOnTunnelError env.listenOk env.mappings
    { readyCloses := 1, exit := .readyExit,
      openListeners := (r.pairs.filter (fun p => p.listener.isSome)).length,
      nilListenerPairs := (r.pairs.filter (fun p => p.listener.isNone)).length }

lemma tunnelRunGate_none_inv (env : TunnelEnv) (h : tunnelRunGate env = none) :
    (sshTunnelDial env.dialEvents).2 = DialOutcome.connected
    ∧ (runPortMappings env.continueOnTunnelError env.listenOk env.mappings).err
        = none := by
  unfold tunnelRunGate at h
  split at h
  · exact Option.noConfusion h
  split at h
  case _ =>
    split at h
    · exact Option.noConfusion h
    split at h
    case _ hd =>
      split at h
      · exact Option.noConfusion h
      next hns =>
        refine ⟨hd, ?_⟩
        cases hee : (runPortMappings env.continueOnTunnelError env.listenOk
            env.mappings).err with
        | none => rfl
        | some v => rw [hee] at hns; simp at hns
    case _ hd => exact Option.noConfusion h
    case _ hd => exact Option.noConfusion h
  case _ => exact Option.noConfusion h
  case _ => exact Option.noConfusion h

lemma tunnelRun_closed_gate (env : TunnelEnv)
    (h : (tunnelRun env).readyCloses = 1) : tunnelRunGate env = none := by
  unfold tunnelRun at h
  cases hg : tunnelRunGate env with
  | none => rfl
  | some ex => rw [hg] at h; simp at h

/-- The tunnel environment of the C1 counterexample: everything succeeds except
that the single remote listen fails, under ContinueOnTunnelError=true. -/
def c1CexEnv : TunnelEnv :=
  { svcRes := .created, cmRes := .created, saRes := .created, podRes := .created,
    podWaitErr := none, podWaitCtxCancelled := false, kfReadyFirst := true,
    dialEvents := [DialEvent.ok], continueOnTunnelError := true,
    listenOk := fun _ => false,
    mappings := [{ targetIP := "127.0.0.1", targetPortNumber := 8080,
                   containerPortNumber := 80, protocol := .tcp }] }

/-- C1 counterexample. With ContinueOnTunnelError=true and the single remote
listen failing, Run closes readyChan although the SSH client has opened zero
remote listeners. -/
theorem c1_counterexample :
    (tunnelRun c1CexEnv).readyCloses = 1
    ∧ (tunnelRun c1CexEnv).openListeners = 0
    ∧ ¬ ((tunnelRun c1CexEnv).readyCloses = 1 →
          1 ≤ (tunnelRun c1CexEnv).openListeners) := by
  refine ⟨rfl, rfl, ?_⟩
  intro h
  exact absurd (h rfl) (by decide)

/-- C1 (amended). readyChan is closed at most once, and only after Dial has
connected and RunPortMappings has returned without error; when
ContinueOnTunnelError=false every mapping's remote listener is open at that
point (so at least one whenever there is at least one mapping), while with
ContinueOnTunnelError=true the channel may close with zero open listeners. -/
theorem c1_ready_close_amended (env : TunnelEnv) :
    (tunnelRun env).readyCloses ≤ 1
    ∧ ((tunnelRun env).readyCloses = 1 →
        (sshTunnelDial env.dialEvents).2 = DialOutcome.connected
        ∧ (runPortMappings env.continueOnTunnelError env.listenOk
            env.mappings).err = none
        ∧ (tunnelRun env).exit = TunnelRunExit.readyExit)
    ∧ (env.continueOnTunnelError = false → (tunnelRun env).readyCloses = 1 →
        (tunnelRun env).openListeners = env.mappings.length) := by
  refine ⟨?_, ?_, ?_⟩
  · unfold tunnelRun
    cases hg : tunnelRunGate env <;> simp
  · intro h1
    have hg := tunnelRun_closed_gate env h1
    obtain ⟨hd, he⟩ := tunnelRunGate_none_inv env hg
    refine ⟨hd, he, ?_⟩
    unfold tunnelRun
    rw [hg]
  · intro hcont h1
    have hg := tunnelRun_closed_gate env h1
    obtain ⟨hd, he⟩ := tunnelRunGate_none_inv env hg
    unfold tunnelRun
    rw [hg]
    show ((runPortMappings env.continueOnTunnelError env.listenOk
        env.mappings).pairs.filter (fun p => p.listener.isSome)).length
      = env.mappings.length
    rw [hcont] at he ⊢
    have hall := runPortMappingsLoop_false_ok env.listenOk env.mappings [] he
    rw [show (runPortMappings false env.listenOk env.mappings).pairs
        = (runPortMappingsLoop false env.listenOk env.mappings []).pairs from rfl]
    rw [hall]
    generalize env.mappings = l
    induction l with
    | nil => rfl
    | cons x xs ih => simpa [List.filter_cons] using ih

/-- The tunnel environment of the C1 witness: ContinueOnTunnelError=false and
every stage succeeding. -/
def c1WitnessEnv : TunnelEnv :=
  { svcRes := .created, cmRes := .created, saRes := .created, podRes := .created,
    podWaitErr := none, podWaitCtxCancelled := false, kfReadyFirst := true,
    dialEvents := [DialEvent.ok], continueOnTunnelError := false,
    listenOk := fun _ => true,
    mappings := [{ targetIP := "127.0.0.1", targetPortNumber := 8080,
                   containerPortNumber := 80, protocol := .tcp }] }

/-- Witness for c1_ready_close_amended: a fully successful run with
ContinueOnTunnelError=false closes readyChan with its one listener open. -/
theorem c1_ready_close_amended_witness :
    (tunnelRun c1WitnessEnv).exit = TunnelRunExit.readyExit
    ∧ (tunnelRun c1WitnessEnv).openListeners = c1WitnessEnv.mappings.length :=
  ⟨((c1_ready_close_amended c1WitnessEnv).2.1 rfl).2.2,
   (c1_ready_close_amended c1WitnessEnv).2.2 rfl rfl⟩

end Kubetnl
